import Mathlib

/-!
Verification of the role dispatch, checkpoint lifecycle, loss-composition and
reporting logic of `train-with-rebuild.py` (youtube-8m-wangheda).

The relevant fragments of the Python source are shallowly embedded as
executable Lean definitions: tensors of per-class scores are lists of
rationals (one list per example row), fallible Python code is modelled with
`Except`, and the TensorFlow session plumbing that merely moves values around
is elided.  Definition names follow the source where Lean allows it.
-/

namespace YT8M

/-! ## Loss Composition Policy (build_graph, lines 302-309 and 365-399) -/

/-- Row sum, modelling `tf.reduce_sum(v, axis=1)` applied to one example row. -/
def reduceSumRow (v : List ℚ) : ℚ := v.foldl (· + ·) 0

/-- Element-wise `tf.clip_by_value(x, clip_value_min=0.0, clip_value_max=1.0)`. -/
def clipUnit (x : ℚ) : ℚ := min (max x 0) 1

/-- Lines 302-309 of `build_graph`, applied to one example row
(`keep_dims=True` broadcasting makes the batch version row-wise):
`sum_float_labels = reduce_sum(float_labels)`,
`sum_distill_labels = reduce_sum(distill_labels_batch) + 1e-6`,
`distill_labels_batch = float_labels + distill_labels_batch *
  (sum_float_labels / sum_distill_labels * p)`, then clipped into `[0,1]`. -/
def reformDistillRow (p : ℚ) (float_labels distill_labels : List ℚ) : List ℚ :=
  (List.zipWith
    (fun l d =>
      l + d * (reduceSumRow float_labels / (reduceSumRow distill_labels + 1 / 1000000) * p))
    float_labels distill_labels).map clipUnit

/-- Spec-side definition of the blend-mode scenario outcome: the spec scenario
asserts that with label sum 2, distilled sum 1 and blendPercent 0.5 the hybrid
label vector equals `labels + distilled*2` (scaled ratio 2/1), clipped. -/
def reformDistillRowClaimed (float_labels distill_labels : List ℚ) : List ℚ :=
  (List.zipWith (fun l d => l + d * 2) float_labels distill_labels).map clipUnit

/-- The distillation-relevant flags of the run (`FLAGS.multitask`,
`FLAGS.distillation_features`, `FLAGS.distillation_type`,
`FLAGS.distillation_percent`). -/
structure DistillConfig where
  multitask : Bool
  distillation_features : Bool
  distillation_type : Int
  distillation_percent : ℚ
  deriving DecidableEq

/-- Lines 365-399 of `build_graph` (the branch taken when the model did not
supply its own loss): selection of the label loss from the distillation flags.
`predictions` and `support_predictions` are opaque tensors of type `α`; the
two abstract loss functions stand for
`label_loss_fn.calculate_loss(predictions, support_predictions, ·, weights)`
and `label_loss_fn.calculate_loss(predictions, ·, weights)` — the `weights`
argument is identical in every call site and is absorbed into them. -/
def buildLabelLoss {α : Type} (cfg : DistillConfig)
    (calculate_loss_support : α → α → List (List ℚ) → ℚ)
    (calculate_loss : α → List (List ℚ) → ℚ)
    (predictions support_predictions : α)
    (labels_batch distill_labels_batch : List (List ℚ)) : ℚ :=
  if cfg.multitask then
    if cfg.distillation_features && (cfg.distillation_type == 1) then
      if cfg.distillation_percent ≤ 0 then
        calculate_loss_support predictions support_predictions labels_batch
      else if 1 ≤ cfg.distillation_percent then
        calculate_loss_support predictions support_predictions distill_labels_batch
      else
        calculate_loss_support predictions support_predictions labels_batch
            * (1 - cfg.distillation_percent)
          + calculate_loss_support predictions support_predictions distill_labels_batch
            * cfg.distillation_percent
    else if cfg.distillation_features && (cfg.distillation_type == 2) then
      calculate_loss_support predictions support_predictions distill_labels_batch
    else
      calculate_loss_support predictions support_predictions labels_batch
  else
    if cfg.distillation_features && (cfg.distillation_type == 1) then
      if cfg.distillation_percent ≤ 0 then
        calculate_loss predictions labels_batch
      else if 1 ≤ cfg.distillation_percent then
        calculate_loss predictions distill_labels_batch
      else
        calculate_loss predictions labels_batch * (1 - cfg.distillation_percent)
          + calculate_loss predictions distill_labels_batch * cfg.distillation_percent
    else if cfg.distillation_features && (cfg.distillation_type == 2) then
      calculate_loss predictions distill_labels_batch
    else
      calculate_loss predictions labels_batch

/-- C1 counterexample: in the spec scenario (ground-truth row sum 2, distilled
row sum 1, blendPercent 0.5) the code does not produce `labels + distilled*2`:
the multiplier actually applied is `2 / (1 + 1e-6) * 0.5 = 1000000/1000001`,
so the two vectors differ in any coordinate where the label is 0 and the
distilled score is strictly between 0 and 1/2. -/
theorem reform_blend_counterexample :
    reduceSumRow [1, 1, 0] = 2 ∧
    reduceSumRow [(1 : ℚ)/2, 1/4, 1/4] = 1 ∧
    reformDistillRow (1/2) [1, 1, 0] [(1 : ℚ)/2, 1/4, 1/4] ≠
      reformDistillRowClaimed [1, 1, 0] [(1 : ℚ)/2, 1/4, 1/4] := by
  have h1 : reformDistillRow (1/2) [1, 1, 0] [(1 : ℚ)/2, 1/4, 1/4] =
      [1, 1, 250000/1000001] := by
    simp only [reformDistillRow, reduceSumRow, clipUnit, List.foldl_cons, List.foldl_nil,
      List.zipWith_cons_cons, List.zipWith_nil_right, List.map_cons, List.map_nil]
    norm_num [min_def, max_def]
  have h2 : reformDistillRowClaimed [1, 1, 0] [(1 : ℚ)/2, 1/4, 1/4] = [1, 1, 1/2] := by
    simp only [reformDistillRowClaimed, clipUnit, List.zipWith_cons_cons,
      List.zipWith_nil_right, List.map_cons, List.map_nil]
    norm_num [min_def, max_def]
  refine ⟨by norm_num [reduceSumRow], by norm_num [reduceSumRow], ?_⟩
  rw [h1, h2]
  simp only [ne_eq, List.cons.injEq]
  norm_num

/-- C1 (amended): for blend distillation (`distillation_type = 2`) with
per-example ground-truth label sum 2, distilled label sum 1 and
`distillation_percent = 0.5`, the hybrid label row equals
`labels + distilled * (1000000/1000001)` — the multiplier is
`sumLabels / (sumDistilled + 1e-6) * p`, not the spec scenario's bare ratio
`2/1` — clipped element-wise into `[0,1]`. -/
theorem reform_blend_amended (float_labels distill_labels : List ℚ)
    (hl : reduceSumRow float_labels = 2) (hd : reduceSumRow distill_labels = 1) :
    reformDistillRow (1/2) float_labels distill_labels =
      (List.zipWith (fun l d => l + d * (1000000 / 1000001))
        float_labels distill_labels).map clipUnit := by
  simp only [reformDistillRow, hl, hd]
  norm_num

/-- Witness for `reform_blend_amended` at a concrete batch row. -/
theorem reform_blend_amended_witness :
    (reduceSumRow [1, 1, 0] = 2 ∧ reduceSumRow [(1 : ℚ)/2, 1/4, 1/4] = 1) ∧
    reformDistillRow (1/2) [1, 1, 0] [(1 : ℚ)/2, 1/4, 1/4] =
      (List.zipWith (fun l d => l + d * (1000000 / 1000001))
        [1, 1, 0] [(1 : ℚ)/2, 1/4, 1/4]).map clipUnit :=
  ⟨⟨by norm_num [reduceSumRow], by norm_num [reduceSumRow]⟩,
    reform_blend_amended [1, 1, 0] [(1 : ℚ)/2, 1/4, 1/4]
      (by norm_num [reduceSumRow]) (by norm_num [reduceSumRow])⟩

/-- C2: for replace distillation (`distillation_type = 1`), for every blend
coefficient `p`: if `p ≤ 0` the label loss is the loss on ground-truth labels
only; if `p ≥ 1` it is the loss on distilled labels only; otherwise it is the
convex combination `(1-p) * loss(labels) + p * loss(distilledLabels)`; and this
holds both with and without multitask support predictions. -/
theorem replace_distillation_convex {α : Type} (multitask : Bool) (p : ℚ)
    (cls : α → α → List (List ℚ) → ℚ) (cl : α → List (List ℚ) → ℚ)
    (preds sup : α) (labels distilled : List (List ℚ)) :
    buildLabelLoss ⟨multitask, true, 1, p⟩ cls cl preds sup labels distilled =
      if p ≤ 0 then
        (if multitask then cls preds sup labels else cl preds labels)
      else if 1 ≤ p then
        (if multitask then cls preds sup distilled else cl preds distilled)
      else
        (1 - p) * (if multitask then cls preds sup labels else cl preds labels)
          + p * (if multitask then cls preds sup distilled else cl preds distilled) := by
  cases multitask <;> simp only [buildLabelLoss] <;> norm_num <;> split_ifs <;> ring

/-! ## Role Dispatcher (Trainer.__init__ lines 454-471, main lines 737-762) -/

/-- The task assignment loaded from `TF_CONFIG` (`{type: string, index: int}`). -/
structure TaskSpec where
  type : String
  index : Int
  deriving DecidableEq

/-- The state a constructed `Trainer` carries that matters here. -/
structure TrainerHandle where
  is_master : Bool
  deriving DecidableEq

/-- Lines 454-471 (`Trainer.__init__`):
`self.is_master = (task.type == "master" and task.index == 0)` followed by
`if self.is_master and self.task.index > 0: raise StandardError(...)`. -/
def trainerInit (task : TaskSpec) : Except String TrainerHandle :=
  if (task.type == "master" && task.index == 0) && decide (0 < task.index) then
    .error "Only one replica of master expected"
  else
    .ok ⟨task.type == "master" && task.index == 0⟩

/-- The guard of `Trainer.__init__` is unsatisfiable: `is_master` already
requires `index == 0`, so the conjunction with `index > 0` never holds and
construction always succeeds. -/
theorem trainerInit_eq (task : TaskSpec) :
    trainerInit task = .ok ⟨task.type == "master" && task.index == 0⟩ := by
  unfold trainerInit
  split
  · rename_i hguard
    simp only [Bool.and_eq_true, beq_iff_eq, decide_eq_true_eq] at hguard
    omega
  · rfl

/-- C3: contrary to the claim, a second process claiming role master with a
nonzero index is accepted: `Trainer.__init__` returns normally on
`{type: master, index: 1}` (and on every task), because its duplicate-master
guard `is_master and index > 0` is unsatisfiable — `is_master` itself requires
`index == 0`, contradicting the intent of the raise it guards. -/
theorem second_master_replica_accepted :
    trainerInit ⟨"master", 1⟩ = .ok ⟨false⟩ ∧
    ∀ task, (trainerInit task).isOk = true := by
  constructor
  · rfl
  · intro task
    rw [trainerInit_eq]
    rfl

/-- A cluster topology: role name to list of endpoints (`tf.train.ClusterSpec`).
Only its presence or absence matters to dispatch. -/
structure Cluster where
  jobs : List (String × List String)
  deriving DecidableEq

/-- The behavior instantiated by `main`. -/
inductive DispatchTarget
  | trainer (is_master : Bool)
  | parameterServer
  deriving DecidableEq

/-- Errors `main` can surface while dispatching. -/
inductive MainError
  | invalidTaskType (t : String)
  | standardError (msg : String)
  deriving DecidableEq

/-- Lines 754-762 of `main`:
`if not cluster or task.type == "master" or task.type == "worker"` construct a
`Trainer` (whose constructor may raise), `elif task.type == "ps"` construct a
`ParameterServer`, `else raise ValueError`. -/
def mainDispatch (cluster : Option Cluster) (task : TaskSpec) :
    Except MainError DispatchTarget :=
  if cluster.isNone || task.type == "master" || task.type == "worker" then
    match trainerInit task with
    | .ok h => .ok (.trainer h.is_master)
    | .error msg => .error (.standardError msg)
  else if task.type == "ps" then
    .ok .parameterServer
  else
    .error (.invalidTaskType task.type)

/-- Spec-side definition of the Role Dispatcher contract (spec 4.1): absent
topology, or role master (coordinator) or worker, yields a Training
Coordinator with `isPrimary = (role == master and index == 0)`; role ps
(parameter-holder) with a topology present yields the Passive Server Role; any
other role string is a configuration error. -/
def dispatchSpec (cluster : Option Cluster) (task : TaskSpec) :
    Except MainError DispatchTarget :=
  match cluster with
  | none => .ok (.trainer (task.type == "master" && task.index == 0))
  | some _ =>
    if task.type == "master" || task.type == "worker" then
      .ok (.trainer (task.type == "master" && task.index == 0))
    else if task.type == "ps" then
      .ok .parameterServer
    else
      .error (.invalidTaskType task.type)

/-- C5: role dispatch in `main` selects exactly the behavior the spec's Role
Dispatcher contract prescribes: Training Coordinator with
`isPrimary = (role == master and index == 0)` when the topology is absent or
the role is master or worker, Passive Server Role for role ps with a topology
present, and a configuration error for any other role string. -/
theorem dispatch_matches_spec (cluster : Option Cluster) (task : TaskSpec) :
    mainDispatch cluster task = dispatchSpec cluster task := by
  cases cluster with
  | none => simp [mainDispatch, dispatchSpec, trainerInit_eq]
  | some c =>
    by_cases hm : task.type = "master"
    · simp [mainDispatch, dispatchSpec, trainerInit_eq, hm]
    · by_cases hw : task.type = "worker"
      · simp [mainDispatch, dispatchSpec, trainerInit_eq, hw, hm]
      · by_cases hp : task.type = "ps"
        · simp [mainDispatch, dispatchSpec, hp, hm, hw]
        · simp [mainDispatch, dispatchSpec, hm, hw, hp]

/-! ## Checkpoint Manager (Trainer.run lines 479-484, 609-634) -/

/-- Outcome of `gfile.DeleteRecursively(train_dir)`: success, or any raised
exception (including the directory not existing). -/
inductive DeleteOutcome
  | deleted
  | failed (msg : String)
  deriving DecidableEq

/-- Lines 609-620 (`Trainer.remove_training_directory`): the deletion is
attempted inside a bare `try/except`; any failure is logged as an error and
swallowed.  Returns whether an error was logged; it never propagates one. -/
def remove_training_directory (deletion : DeleteOutcome) : Bool :=
  match deletion with
  | .deleted => false
  | .failed _ => true

/-- Lines 622-634 (`Trainer.get_latest_checkpoint`): with
`start_new_model` set the function returns `None` immediately; otherwise it
returns `tf.train.latest_checkpoint(train_dir)`, which is `None` when the
directory holds no checkpoint. -/
def get_latest_checkpoint (start_new_model : Bool) (latest_checkpoint : Option String) :
    Option String :=
  if start_new_model then none
  else
    match latest_checkpoint with
    | none => none
    | some c => some c

/-- Lines 479-484 of `Trainer.run`: on a primary process with
`start_new_model` the training directory is removed best-effort, then the
checkpoint to restore is looked up.  Returns the checkpoint decision plus
whether a cleanup error was logged. -/
def decideResume (is_master start_new_model : Bool) (deletion : DeleteOutcome)
    (latest_checkpoint : Option String) : Option String × Bool :=
  let errorLogged :=
    if is_master && start_new_model then remove_training_directory deletion else false
  (get_latest_checkpoint start_new_model latest_checkpoint, errorLogged)

/-- C4: on a primary process with `startNew = true`, the resume decision is
`none` for every prior directory content and every deletion outcome; a failed
deletion (including a missing directory) is only logged — the decision is
still reached, with no exception escaping — and a successful deletion logs
nothing. -/
theorem decide_resume_start_new_none (deletion : DeleteOutcome)
    (latest : Option String) (msg : String) :
    (decideResume true true deletion latest).1 = none ∧
    decideResume true true (.failed msg) latest = (none, true) ∧
    decideResume true true .deleted latest = (none, false) := by
  cases deletion <;>
    simp [decideResume, get_latest_checkpoint, remove_training_directory]

/-! ## Metrics reporting in the step loop (Trainer.run lines 534-578) -/

/-- The metric snapshot a reporting step computes. -/
structure MetricSnapshot where
  hitAtOne : ℚ
  perr : ℚ
  gap : ℚ
  deriving DecidableEq

/-- One record of the log/summary stream emitted by a reporting step. -/
structure LogRecord where
  step : Nat
  lossValue : ℚ
  metrics : MetricSnapshot
  examplesPerSecond : ℚ
  recallAtN : String
  deriving DecidableEq

/-- Lines 552-558 of `Trainer.run`: `recall = "N/A"`, then `if False:` guards
the call to `eval_util.calculate_recall_at_n` and the reformatting of
`recall`.  Returns the recall string for the log line plus whether the metric
computation was invoked; the string in the dead branch stands for the
`"%.2f" % recall` rendering. -/
def computeRecallField
    (calculate_recall_at_n : List (List ℚ) → List (List ℚ) → Int → ℚ)
    (recall_at_n : Int) (predictions_val labels_val : List (List ℚ)) : String × Bool :=
  let recallStr := "N/A"
  if (false : Bool) = true then
    let r := calculate_recall_at_n predictions_val labels_val recall_at_n
    let _ := r
    ("computed", true)
  else
    (recallStr, false)

/-- Lines 546-578 of `Trainer.run`: the reporting block guarded by
`if self.is_master`.  The three metric functions and the recall function stand
for the corresponding `eval_util` calls on the fetched predictions and labels;
the emitted record carries the global step, the loss value, the metric
snapshot and `examples_per_second = labels_val.shape[0] / seconds_per_batch`.
A non-primary process emits nothing. -/
def runIterationReport (is_master : Bool)
    (calculate_hit_at_one calculate_perr calculate_gap :
      List (List ℚ) → List (List ℚ) → ℚ)
    (calculate_recall_at_n : List (List ℚ) → List (List ℚ) → Int → ℚ)
    (recall_at_n : Int) (global_step_val : Nat) (loss_val : ℚ)
    (predictions_val labels_val : List (List ℚ)) (seconds_per_batch : ℚ) :
    Option LogRecord :=
  if is_master then
    let examples_per_second := (labels_val.length : ℚ) / seconds_per_batch
    let hit_at_one := calculate_hit_at_one predictions_val labels_val
    let perr := calculate_perr predictions_val labels_val
    let recallStr := computeRecallField calculate_recall_at_n recall_at_n
      predictions_val labels_val
    let gap := calculate_gap predictions_val labels_val
    some ⟨global_step_val, loss_val, ⟨hit_at_one, perr, gap⟩,
      examples_per_second, recallStr.1⟩
  else
    none

/-- C6: in every loop iteration the metric snapshot and log/summary record —
step, loss value, Hit@1, PERR, GAP, examples per second — are emitted exactly
when the process is primary: a primary process emits precisely that record and
a non-primary process writes nothing to the sink. -/
theorem report_emitted_iff_primary (is_master : Bool)
    (hit pe gp : List (List ℚ) → List (List ℚ) → ℚ)
    (cr : List (List ℚ) → List (List ℚ) → Int → ℚ) (n : Int)
    (gs : Nat) (loss : ℚ) (preds labels : List (List ℚ)) (secs : ℚ) :
    (runIterationReport is_master hit pe gp cr n gs loss preds labels secs).isSome
      = is_master ∧
    runIterationReport true hit pe gp cr n gs loss preds labels secs =
      some ⟨gs, loss, ⟨hit preds labels, pe preds labels, gp preds labels⟩,
        (labels.length : ℚ) / secs, "N/A"⟩ ∧
    runIterationReport false hit pe gp cr n gs loss preds labels secs = none := by
  refine ⟨?_, ?_, rfl⟩
  · cases is_master <;> rfl
  · rfl

/-- C10: the recall@N computation is dead code: its guard is the literal
`False`, so for every configuration of `recall_at_n`, every recall function
and every batch, `calculate_recall_at_n` is never invoked and the Recall@N
field of any emitted log record is the literal string `"N/A"`. -/
theorem recall_guard_always_off (is_master : Bool)
    (hit pe gp : List (List ℚ) → List (List ℚ) → ℚ)
    (cr : List (List ℚ) → List (List ℚ) → Int → ℚ) (n : Int)
    (gs : Nat) (loss : ℚ) (preds labels : List (List ℚ)) (secs : ℚ) :
    computeRecallField cr n preds labels = ("N/A", false) ∧
    (runIterationReport is_master hit pe gp cr n gs loss preds labels secs).all
      (fun r => r.recallAtN == "N/A") = true := by
  refine ⟨rfl, ?_⟩
  cases is_master <;> rfl

/-! ## Class-name resolution (lines 133-159, 206-209, 658-664) -/

/-- A Python class as seen by the resolution code: its name and the names of
the classes it (transitively) inherits from. -/
structure PyClass where
  className : String
  ancestors : List String
  deriving DecidableEq

/-- A Python module as a `getattr` environment: attribute name to class. -/
def PyModule := List (String × PyClass)

instance : DecidableEq PyModule := by
  unfold PyModule
  infer_instance

/-- `getattr(module, name, None)`. -/
def getattrOpt (module : PyModule) (name : String) : Option PyClass :=
  (module.find? (fun kv => kv.1 == name)).map (fun kv => kv.2)

/-- Exceptions raised by the resolution helpers. -/
inductive PyError
  | stopIteration
  | flagsError (msg : String)
  deriving DecidableEq

/-- Lines 206-209 (`find_class_by_name`): builds the list of
`getattr(module, name, None)` results and takes `next(a for a in modules if a)`
— the first non-None entry; an exhausted generator raises `StopIteration`. -/
def find_class_by_name (name : String) (modules : List PyModule) :
    Except PyError PyClass :=
  match ((modules.map (fun module => getattrOpt module name)).filterMap id).head? with
  | some c => .ok c
  | none => .error .stopIteration

/-- `issubclass(candidate, expected_superclass)` over our class model. -/
def issubclass (candidate : PyClass) (expected_superclass : String) : Bool :=
  candidate.className == expected_superclass
    || candidate.ancestors.contains expected_superclass

/-- Lines 133-159 (`validate_class_name`): walks the candidate list, skips the
`None`s, and on the first real candidate raises `FlagsError` unless it
inherits from the expected superclass; raises `FlagsError` when nothing was
found. -/
def validate_class_name (flag_value : String) (modules : List PyModule)
    (expected_superclass : String) : Except PyError Bool :=
  match ((modules.map (fun module => getattrOpt module flag_value)).filterMap id).head? with
  | some candidate =>
    if issubclass candidate expected_superclass then .ok true
    else .error (.flagsError "class does not inherit from expected superclass")
  | none => .error (.flagsError "Unable to find class")

/-- The classes `Trainer.build_model` resolves before building the graph. -/
structure ResolvedClasses where
  model : PyClass
  label_loss_fn : PyClass
  optimizer_class : PyClass
  transformer_class : PyClass
  augmenter_class : PyClass
  deriving DecidableEq

/-- Lines 658-664 of `Trainer.build_model`: the five identifiers are resolved
with `find_class_by_name` against their module lists, in order; the first
`StopIteration` propagates.  No superclass check is performed here. -/
def build_model_resolve (modelName lossName optimizerName transformerName augmenterName : String)
    (frame_level_models video_level_models losses_module tf_train
      feature_transform data_augmentation : PyModule) :
    Except PyError ResolvedClasses :=
  match find_class_by_name modelName [frame_level_models, video_level_models] with
  | .error e => .error e
  | .ok model =>
    match find_class_by_name lossName [losses_module] with
    | .error e => .error e
    | .ok label_loss_fn =>
      match find_class_by_name optimizerName [tf_train] with
      | .error e => .error e
      | .ok optimizer_class =>
        match find_class_by_name transformerName [feature_transform] with
        | .error e => .error e
        | .ok transformer_class =>
          match find_class_by_name augmenterName [data_augmentation] with
          | .error e => .error e
          | .ok augmenter_class =>
            .ok ⟨model, label_loss_fn, optimizer_class, transformer_class, augmenter_class⟩

/-! ## Input pipeline and training loop (lines 186-189, 529-590) -/

/-- The error of lines 186-189. -/
inductive TrainFilesError
  | unableToFindTrainingFiles (data_pattern : String)
  deriving DecidableEq

/-- The input pipeline handle built from the matched files. -/
structure InputTensors where
  files : List String
  deriving DecidableEq

/-- Lines 186-189 of `get_input_data_tensors`:
`files = gfile.Glob(data_pattern); if not files: raise IOError(...)`. -/
def get_input_data_tensors (data_pattern : String) (globFiles : List String) :
    Except TrainFilesError InputTensors :=
  if globFiles.isEmpty then .error (.unableToFindTrainingFiles data_pattern)
  else .ok ⟨globFiles⟩

/-- How the `while` loop of `Trainer.run` returned control. -/
inductive LoopExit
  | maxStepsReached
  | supervisorStop
  deriving DecidableEq

/-- The informational message logged at loop termination. -/
inductive TermLog
  | infoMaxSteps
  | infoEpochLimit
  | noLog
  deriving DecidableEq

/-- Lines 532-583, the `while not sv.should_stop()` loop.  The data pipeline
is a list of batches; `sess.run` on an exhausted pipeline raises
`tf.errors.OutOfRangeError`, modelled as `Except.error` carrying the value of
the `steps` counter at the raise (it was already incremented).  After a
successful step, `steps > FLAGS.max_steps` (when `max_steps` is set) breaks
out of the loop. -/
def trainLoopBody (should_stop : Nat → Bool) (max_steps : Option Nat) :
    List Unit → Nat → Except Nat (LoopExit × Nat)
  | [], steps =>
    if should_stop steps then .ok (.supervisorStop, steps)
    else .error (steps + 1)
  | _ :: rest, steps =>
    if should_stop steps then .ok (.supervisorStop, steps)
    else
      match max_steps with
      | some m =>
        if m < steps + 1 then .ok (.maxStepsReached, steps + 1)
        else trainLoopBody should_stop max_steps rest (steps + 1)
      | none => trainLoopBody should_stop max_steps rest (steps + 1)

/-- Lines 529-590: the loop body wrapped in
`try: ... except tf.errors.OutOfRangeError:` — a max-steps break logs
"Done training -- max_steps limit reached.", a caught `OutOfRangeError` logs
"Done training -- epoch limit reached.", and both fall through to the normal
exit path; no error escapes. -/
def trainLoopRun (should_stop : Nat → Bool) (max_steps : Option Nat)
    (batches : List Unit) : TermLog × Nat :=
  match trainLoopBody should_stop max_steps batches 0 with
  | .ok (.maxStepsReached, n) => (.infoMaxSteps, n)
  | .ok (.supervisorStop, n) => (.noLog, n)
  | .error n => (.infoEpochLimit, n)

/-- Exhausting the pipeline with no step ceiling raises `OutOfRangeError`
after the counter increment of the failing iteration. -/
theorem trainLoopBody_none_exhausts (batches : List Unit) (s : Nat) :
    trainLoopBody (fun _ => false) none batches s = .error (s + batches.length + 1) := by
  induction batches generalizing s with
  | nil => simp [trainLoopBody]
  | cons b rest ih =>
    simp only [trainLoopBody, ih, List.length_cons]
    norm_num
    omega

/-- With a step ceiling `m` and enough batches, the loop breaks at step
`m + 1`. -/
theorem trainLoopBody_maxsteps (m : Nat) (batches : List Unit) :
    ∀ s, s ≤ m → m + 1 ≤ s + batches.length →
      trainLoopBody (fun _ => false) (some m) batches s = .ok (.maxStepsReached, m + 1) := by
  induction batches with
  | nil =>
    intro s hs hlen
    exfalso
    simp at hlen
    omega
  | cons b rest ih =>
    intro s hs hlen
    simp only [trainLoopBody, Bool.false_eq_true, if_false]
    by_cases hc : m < s + 1
    · have hsm : s = m := by omega
      simp [hc, hsm]
    · simp only [hc, if_false]
      exact ih (s + 1) (by omega) (by simp at hlen; omega)

/-- C9: with a configured step ceiling `m` and at least `m + 1` batches
available, the training loop ends by the max-steps break at step `m + 1`,
logging the informational max-steps message; with no ceiling, pipeline
exhaustion (`OutOfRangeError`) is caught and ends the loop, logging the
informational epoch-limit message — in both cases `trainLoopRun` returns
normally (no error escapes) and the two termination reasons log distinct
informational messages. -/
theorem training_loop_graceful (m : Nat) (batches : List Unit)
    (hlen : m + 1 ≤ batches.length) :
    trainLoopRun (fun _ => false) (some m) batches = (.infoMaxSteps, m + 1) ∧
    trainLoopRun (fun _ => false) none batches = (.infoEpochLimit, batches.length + 1) := by
  constructor
  · unfold trainLoopRun
    rw [trainLoopBody_maxsteps m batches 0 (Nat.zero_le m) (by omega)]
  · unfold trainLoopRun
    rw [trainLoopBody_none_exhausts batches 0]
    simp

/-- Witness for `training_loop_graceful` with ceiling 1 and three batches. -/
theorem training_loop_graceful_witness :
    1 + 1 ≤ ([(), (), ()] : List Unit).length ∧
    (trainLoopRun (fun _ => false) (some 1) [(), (), ()] = (.infoMaxSteps, 2) ∧
     trainLoopRun (fun _ => false) none [(), (), ()] = (.infoEpochLimit, 4)) :=
  ⟨by decide, training_loop_graceful 1 [(), (), ()] (by decide)⟩

/-! ## The startup-then-loop pipeline of Trainer.run/build_model -/

/-- How a run of the Training Coordinator ends. -/
inductive RunOutcome
  | startupFailure (e : PyError)
  | dataSourceFailure (e : TrainFilesError)
  | finished (log : TermLog) (stepsVar : Nat)
  deriving DecidableEq

/-- The order of operations of `Trainer.run`/`Trainer.build_model`: class
resolution (lines 658-664), then the input pipeline (`build_graph` calls
`get_input_data_tensors`, lines 186-189), then the step loop (lines 529-590).
An exception from either startup stage aborts before the loop can run. -/
def trainerRunPipeline (modelName lossName optimizerName transformerName augmenterName : String)
    (frame_level_models video_level_models losses_module tf_train
      feature_transform data_augmentation : PyModule)
    (data_pattern : String) (globFiles : List String)
    (should_stop : Nat → Bool) (max_steps : Option Nat) (batches : List Unit) :
    RunOutcome :=
  match build_model_resolve modelName lossName optimizerName transformerName augmenterName
      frame_level_models video_level_models losses_module tf_train
      feature_transform data_augmentation with
  | .error e => .startupFailure e
  | .ok _ =>
    match get_input_data_tensors data_pattern globFiles with
    | .error e => .dataSourceFailure e
    | .ok _ =>
      let r := trainLoopRun should_stop max_steps batches
      .finished r.1 r.2

/-- C7: when the input-data glob matches zero files,
`get_input_data_tensors` raises `IOError` mentioning the pattern, and —
provided startup class resolution succeeded, so the run reaches pipeline
construction — the whole run aborts as a data-source failure before any
training step executes. -/
theorem empty_glob_fails_fast
    (modelName lossName optimizerName transformerName augmenterName : String)
    (fm vm lm om tm am : PyModule) (data_pattern : String)
    (should_stop : Nat → Bool) (max_steps : Option Nat) (batches : List Unit)
    (r : ResolvedClasses)
    (hres : build_model_resolve modelName lossName optimizerName transformerName augmenterName
      fm vm lm om tm am = .ok r) :
    get_input_data_tensors data_pattern [] =
      .error (.unableToFindTrainingFiles data_pattern) ∧
    trainerRunPipeline modelName lossName optimizerName transformerName augmenterName
        fm vm lm om tm am data_pattern [] should_stop max_steps batches =
      .dataSourceFailure (.unableToFindTrainingFiles data_pattern) := by
  refine ⟨rfl, ?_⟩
  simp [trainerRunPipeline, hres, get_input_data_tensors]

/-- A one-class module for concrete dispatch scenarios. -/
def stubModule (n : String) : PyModule := [(n, ⟨n, ["Base"]⟩)]

/-- Witness for `empty_glob_fails_fast` at concrete, fully-resolving modules. -/
theorem empty_glob_fails_fast_witness :
    build_model_resolve "M" "L" "O" "T" "A" (stubModule "M") []
        (stubModule "L") (stubModule "O") (stubModule "T") (stubModule "A") =
      .ok ⟨⟨"M", ["Base"]⟩, ⟨"L", ["Base"]⟩, ⟨"O", ["Base"]⟩, ⟨"T", ["Base"]⟩, ⟨"A", ["Base"]⟩⟩ ∧
    (get_input_data_tensors "pat" [] = .error (.unableToFindTrainingFiles "pat") ∧
     trainerRunPipeline "M" "L" "O" "T" "A" (stubModule "M") []
        (stubModule "L") (stubModule "O") (stubModule "T") (stubModule "A")
        "pat" [] (fun _ => false) none [] =
      .dataSourceFailure (.unableToFindTrainingFiles "pat")) :=
  ⟨rfl, empty_glob_fails_fast "M" "L" "O" "T" "A" (stubModule "M") []
    (stubModule "L") (stubModule "O") (stubModule "T") (stubModule "A")
    "pat" (fun _ => false) none [] _ rfl⟩

/-- A module whose only class does not inherit from `BaseModel`. -/
def badModelModule : PyModule := [("BadModel", ⟨"BadModel", ["object"]⟩)]

/-- C8 counterexample: a model identifier that resolves to a class not
inheriting from the expected superclass does not make the program fail at
startup: `find_class_by_name` happily returns the class (it checks no
superclass), the run proceeds all the way into the training loop, and only
the never-called `validate_class_name` would have rejected it. -/
theorem wrong_superclass_not_rejected_at_startup :
    find_class_by_name "BadModel" [badModelModule, []] = .ok ⟨"BadModel", ["object"]⟩ ∧
    issubclass ⟨"BadModel", ["object"]⟩ "BaseModel" = false ∧
    validate_class_name "BadModel" [badModelModule, []] "BaseModel" =
      .error (.flagsError "class does not inherit from expected superclass") ∧
    trainerRunPipeline "BadModel" "L" "O" "T" "A" badModelModule []
        (stubModule "L") (stubModule "O") (stubModule "T") (stubModule "A")
        "pat" ["file1"] (fun _ => false) none [] =
      .finished .infoEpochLimit 1 :=
  ⟨rfl, rfl, rfl, rfl⟩

/-- The identifier resolves in none of the given modules. -/
def unresolvedIn (name : String) (modules : List PyModule) : Prop :=
  ∀ module, module ∈ modules → getattrOpt module name = none

instance (name : String) (modules : List PyModule) :
    Decidable (unresolvedIn name modules) := by
  unfold unresolvedIn
  infer_instance

/-- An unresolvable identifier makes `find_class_by_name` raise
`StopIteration`. -/
theorem find_class_unresolved (name : String) (modules : List PyModule)
    (h : unresolvedIn name modules) :
    find_class_by_name name modules = .error .stopIteration := by
  unfold find_class_by_name
  have hnil : ((modules.map (fun module => getattrOpt module name)).filterMap id) = [] := by
    rw [List.filterMap_eq_nil_iff]
    intro a ha
    simp only [List.mem_map] at ha
    obtain ⟨mo, hmo, rfl⟩ := ha
    exact h mo hmo
  rw [hnil]
  rfl

/-- If the five-way resolution of `build_model` succeeded, each individual
lookup succeeded. -/
theorem build_resolve_ok_finds
    {modelName lossName optimizerName transformerName augmenterName : String}
    {fm vm lm om tm am : PyModule} {r : ResolvedClasses}
    (hb : build_model_resolve modelName lossName optimizerName transformerName augmenterName
      fm vm lm om tm am = .ok r) :
    (find_class_by_name modelName [fm, vm]).isOk = true ∧
    (find_class_by_name lossName [lm]).isOk = true ∧
    (find_class_by_name optimizerName [om]).isOk = true ∧
    (find_class_by_name transformerName [tm]).isOk = true ∧
    (find_class_by_name augmenterName [am]).isOk = true := by
  unfold build_model_resolve at hb
  cases h1 : find_class_by_name modelName [fm, vm] with
  | error e => rw [h1] at hb; simp at hb
  | ok c1 =>
    rw [h1] at hb
    cases h2 : find_class_by_name lossName [lm] with
    | error e => rw [h2] at hb; simp at hb
    | ok c2 =>
      rw [h2] at hb
      cases h3 : find_class_by_name optimizerName [om] with
      | error e => rw [h3] at hb; simp at hb
      | ok c3 =>
        rw [h3] at hb
        cases h4 : find_class_by_name transformerName [tm] with
        | error e => rw [h4] at hb; simp at hb
        | ok c4 =>
          rw [h4] at hb
          cases h5 : find_class_by_name augmenterName [am] with
          | error e => rw [h5] at hb; simp at hb
          | ok c5 => exact ⟨rfl, rfl, rfl, rfl, rfl⟩

/-- C8 (amended): an identifier among model, loss, optimizer,
feature-transformer or data-augmenter that resolves in none of its registry
modules makes the run fail at startup — `find_class_by_name` raises
`StopIteration` inside `build_model`, before the input pipeline is built and
before any training step.  (A resolvable identifier of the wrong superclass is
not rejected, since `validate_class_name` is never invoked on this path.) -/
theorem unresolvable_identifier_fails_startup
    (modelName lossName optimizerName transformerName augmenterName : String)
    (fm vm lm om tm am : PyModule) (data_pattern : String) (globFiles : List String)
    (should_stop : Nat → Bool) (max_steps : Option Nat) (batches : List Unit)
    (h : unresolvedIn modelName [fm, vm] ∨ unresolvedIn lossName [lm] ∨
         unresolvedIn optimizerName [om] ∨ unresolvedIn transformerName [tm] ∨
         unresolvedIn augmenterName [am]) :
    ∃ e, trainerRunPipeline modelName lossName optimizerName transformerName augmenterName
        fm vm lm om tm am data_pattern globFiles should_stop max_steps batches =
      .startupFailure e := by
  cases hb : build_model_resolve modelName lossName optimizerName transformerName augmenterName
      fm vm lm om tm am with
  | error e => exact ⟨e, by simp [trainerRunPipeline, hb]⟩
  | ok r =>
    exfalso
    have hf := build_resolve_ok_finds hb
    rcases h with h | h | h | h | h
    · rw [find_class_unresolved _ _ h] at hf
      exact Bool.false_ne_true hf.1
    · rw [find_class_unresolved _ _ h] at hf
      exact Bool.false_ne_true hf.2.1
    · rw [find_class_unresolved _ _ h] at hf
      exact Bool.false_ne_true hf.2.2.1
    · rw [find_class_unresolved _ _ h] at hf
      exact Bool.false_ne_true hf.2.2.2.1
    · rw [find_class_unresolved _ _ h] at hf
      exact Bool.false_ne_true hf.2.2.2.2

/-- Witness for `unresolvable_identifier_fails_startup`: a model identifier
found in neither model module. -/
theorem unresolvable_identifier_fails_startup_witness :
    (unresolvedIn "Missing" [([] : PyModule), []] ∨ unresolvedIn "L" [stubModule "L"] ∨
     unresolvedIn "O" [stubModule "O"] ∨ unresolvedIn "T" [stubModule "T"] ∨
     unresolvedIn "A" [stubModule "A"]) ∧
    ∃ e, trainerRunPipeline "Missing" "L" "O" "T" "A" [] []
        (stubModule "L") (stubModule "O") (stubModule "T") (stubModule "A")
        "pat" ["file1"] (fun _ => false) none [] =
      .startupFailure e :=
  ⟨Or.inl (by decide),
    unresolvable_identifier_fails_startup "Missing" "L" "O" "T" "A" [] []
      (stubModule "L") (stubModule "O") (stubModule "T") (stubModule "A")
      "pat" ["file1"] (fun _ => false) none [] (Or.inl (by decide))⟩

end YT8M
